import Mathlib

/-!
Verification of the prediction-context assembly and response-contract engine
of the EKS job failure predictor (SPDEMO_demo.py), shallowly embedded in Lean.
Python strings are modelled as lists of characters; Python dicts produced by
json.loads are modelled by an inductive Json type; numbers are modelled as
integers (no claim depends on fractional JSON numbers).
-/

/-- Python strings are modelled as lists of characters. -/
abbrev Str := List Char

/-- Decide whether sub is a prefix of s (chars compared one by one). -/
def isPre : Str → Str → Bool
  | [], _ => true
  | _ :: _, [] => false
  | a :: as, b :: bs => a = b && isPre as bs

/-- Decide whether sub occurs as a contiguous substring of s;
this models the Python test sub in s. -/
def isSub (sub : Str) : Str → Bool
  | [] => isPre sub []
  | s@(_ :: rest) => isPre sub s || isSub sub rest

/-- Characters Python's str.strip removes (the common whitespace). -/
def isWsChar (c : Char) : Bool := c = ' ' || c = '\t' || c = '\n' || c = '\r'

/-- Remove leading whitespace. -/
def stripL (s : Str) : Str := s.dropWhile isWsChar

/-- Remove trailing whitespace. -/
def stripR (s : Str) : Str := (s.reverse.dropWhile isWsChar).reverse

/-- Python str.strip: remove leading and trailing whitespace. -/
def pyStrip (s : Str) : Str := stripR (stripL s)

/-- Python str.split(sep) for a non-empty separator, fuel-driven so that it
reduces definitionally: scan left to right, cutting at each non-overlapping
occurrence of sep. -/
def pySplitFuel : Nat → Str → Str → Str → List Str
  | 0, _, acc, s => [acc.reverse ++ s]
  | fuel + 1, sep, acc, s =>
    match s with
    | [] => [acc.reverse]
    | c :: rest =>
      if isPre sep (c :: rest) then
        acc.reverse :: pySplitFuel fuel sep [] ((c :: rest).drop sep.length)
      else
        pySplitFuel fuel sep (c :: acc) rest

/-- Python s.split(sep) (sep non-empty). -/
def pySplit (sep s : Str) : List Str := pySplitFuel (s.length + 1) sep [] s

/-- JSON values as produced by json.loads; numbers are modelled as integers
(no claim in this development depends on fractional numbers). -/
inductive Json where
  | null : Json
  | bool (b : Bool) : Json
  | num (n : Int) : Json
  | str (s : Str) : Json
  | arr (xs : List Json) : Json
  | obj (fields : List (Str × Json)) : Json

/-- Skip JSON whitespace. -/
def skipWs (s : Str) : Str := s.dropWhile isWsChar

/-- Decode the body of a JSON string literal (after the opening quote),
returning the decoded characters and the remainder after the closing quote.
The \u escape is not modelled; no input of this development uses it. -/
def parseStrBody : Str → Option (Str × Str)
  | [] => none
  | '"' :: rest => some ([], rest)
  | '\\' :: e :: rest =>
    match parseStrBody rest with
    | none => none
    | some (cs, rem) =>
      if e = '"' then some ('"' :: cs, rem)
      else if e = '\\' then some ('\\' :: cs, rem)
      else if e = '/' then some ('/' :: cs, rem)
      else if e = 'n' then some ('\n' :: cs, rem)
      else if e = 't' then some ('\t' :: cs, rem)
      else if e = 'r' then some ('\r' :: cs, rem)
      else if e = 'b' then some (Char.ofNat 8 :: cs, rem)
      else if e = 'f' then some (Char.ofNat 12 :: cs, rem)
      else none
  | c :: rest =>
    match parseStrBody rest with
    | none => none
    | some (cs, rem) => some (c :: cs, rem)

/-- Digits of a non-negative decimal literal, most significant first. -/
def digitsVal : List Char → Nat → Nat
  | [], acc => acc
  | c :: rest, acc => digitsVal rest (acc * 10 + (c.toNat - 48))

/-- Parse one JSON value from the front of the input (no leading whitespace),
returning the value and the remainder.  Arrays and objects are parsed by
re-entering the parser on a reconstructed open bracket, so the recursion is
plain structural recursion on the fuel. -/
def parseVal : Nat → Str → Option (Json × Str)
  | 0, _ => none
  | fuel + 1, s =>
    match s with
    | [] => none
    | 'n' :: rest =>
      if isPre ("ull".data) rest then some (Json.null, rest.drop 3) else none
    | 't' :: rest =>
      if isPre ("rue".data) rest then some (Json.bool true, rest.drop 3) else none
    | 'f' :: rest =>
      if isPre ("alse".data) rest then some (Json.bool false, rest.drop 4) else none
    | '"' :: rest =>
      match parseStrBody rest with
      | none => none
      | some (cs, rem) => some (Json.str cs, rem)
    | '-' :: rest =>
      let ds := rest.takeWhile Char.isDigit
      if ds = [] then none
      else some (Json.num (-(digitsVal ds 0 : Int)), rest.drop ds.length)
    | '[' :: rest =>
      let r := skipWs rest
      match r with
      | ']' :: r2 => some (Json.arr [], r2)
      | _ =>
        match parseVal fuel r with
        | none => none
        | some (v, r2) =>
          match skipWs r2 with
          | ']' :: r3 => some (Json.arr [v], r3)
          | ',' :: r3 =>
            match skipWs r3 with
            | ']' :: _ => none
            | r4 =>
              match parseVal fuel ('[' :: r4) with
              | some (Json.arr vs, r5) => some (Json.arr (v :: vs), r5)
              | _ => none
          | _ => none
    | '{' :: rest =>
      let r := skipWs rest
      match r with
      | '}' :: r2 => some (Json.obj [], r2)
      | '"' :: r2 =>
        match parseStrBody r2 with
        | none => none
        | some (k, r3) =>
          match skipWs r3 with
          | ':' :: r4 =>
            match parseVal fuel (skipWs r4) with
            | none => none
            | some (v, r5) =>
              match skipWs r5 with
              | '}' :: r6 => some (Json.obj [(k, v)], r6)
              | ',' :: r6 =>
                match skipWs r6 with
                | '}' :: _ => none
                | r7 =>
                  match parseVal fuel ('{' :: r7) with
                  | some (Json.obj kvs, r8) => some (Json.obj ((k, v) :: kvs), r8)
                  | _ => none
              | _ => none
          | _ => none
      | _ => none
    | c :: rest =>
      if c.isDigit then
        let ds := (c :: rest).takeWhile Char.isDigit
        some (Json.num (digitsVal ds 0 : Int), (c :: rest).drop ds.length)
      else none

/-- json.loads: one JSON value, possibly surrounded by whitespace; anything
else is a parse failure (returns none instead of raising JSONDecodeError). -/
def jsonParse (s : Str) : Option Json :=
  match parseVal (s.length + 8) (skipWs s) with
  | some (v, rest) => if skipWs rest = [] then some v else none
  | none => none

/-- The tagged code-fence marker the response may carry. -/
def fenceJson : Str := "```json".data

/-- The bare code-fence marker. -/
def fence : Str := "```".data

/-- Element 1 of a Python list (guarded uses only index into lists of
length at least 2). -/
def pyGet1 (l : List Str) : Str := l.getD 1 []

/-- Element 0 of a Python list. -/
def pyGet0 (l : List Str) : Str := l.getD 0 []

/-- The fence-stripping step of predict_with_claude: if the reply contains a
fence tagged json, keep what stands between the first such fence and the next
fence; else if it contains any fence, keep what stands between the first two
fences; else keep the reply unchanged. -/
def extractResponseText (t : Str) : Str :=
  if isSub fenceJson t then
    pyGet0 (pySplit fence (pyGet1 (pySplit fenceJson t)))
  else if isSub fence t then
    pyGet0 (pySplit fence (pyGet1 (pySplit fence t)))
  else t

/-- The parse step of predict_with_claude: strip the extracted text and parse
it as JSON; on JSONDecodeError the function prints the first 500 characters
of the (extracted) response text and returns None — modelled as an error
value carrying that diagnostic. -/
def predictParse (t : Str) : Except Str Json :=
  match jsonParse (pyStrip (extractResponseText t)) with
  | some v => Except.ok v
  | none => Except.error (List.take 500 (extractResponseText t))

/-- The value predict_with_claude hands back to its caller: the parsed
predictions dict, or None on parse failure. -/
def predictResult (t : Str) : Option Json := (predictParse t).toOption

/-- Python dict .get(key) for a JSON object (none when the key is absent). -/
def jGet (v : Json) (k : Str) : Option Json :=
  match v with
  | Json.obj fields =>
    match fields.find? (fun kv => decide (kv.1 = k)) with
    | some kv => some kv.2
    | none => none
  | _ => none

/-- Python truthiness of a value decoded from JSON. -/
def pyTruthy : Json → Bool
  | Json.null => false
  | Json.bool b => b
  | Json.num n => decide (n ≠ 0)
  | Json.str s => decide (s ≠ [])
  | Json.arr xs => !xs.isEmpty
  | Json.obj fields => !fields.isEmpty

/-- Terminal status of a job execution. -/
inductive ExecStatus where
  | SUCCESS : ExecStatus
  | FAILED : ExecStatus
  | RUNNING : ExecStatus
deriving DecidableEq

/-- One entry of job_execution_history; resource figures are modelled as
exact rationals. -/
structure ExecutionRecord where
  jobName : Str
  executionDate : Str
  status : ExecStatus
  failureReason : Str
  peakMemoryGb : Rat
  avgCpuCores : Rat
  storageUsedGb : Rat
deriving DecidableEq

/-- The quantities get_historical_context computes before rendering them as
prose: counts, the listed failures as (execution date, failure reason)
pairs, and the optional resource-usage averages over successful runs. -/
structure HistoricalContext where
  totalExecutions : Nat
  successCount : Nat
  failureCount : Nat
  recentFailures : List (Str × Str)
  avgUsage : Option (Rat × Rat × Rat)
deriving DecidableEq

/-- The job_history list comprehension of get_historical_context: records
whose job name equals the target exactly. -/
def jobRecords (jobName : Str) (records : List ExecutionRecord) :
    List ExecutionRecord :=
  records.filter (fun r => decide (r.jobName = jobName))

/-- The successes list of get_historical_context. -/
def successRecords (jobName : Str) (records : List ExecutionRecord) :
    List ExecutionRecord :=
  (jobRecords jobName records).filter (fun r => decide (r.status = ExecStatus.SUCCESS))

/-- The failures list of get_historical_context. -/
def failedRecords (jobName : Str) (records : List ExecutionRecord) :
    List ExecutionRecord :=
  (jobRecords jobName records).filter (fun r => decide (r.status = ExecStatus.FAILED))

/-- get_historical_context of SPDEMO_demo.py: filter the records to the job
name, return none for the no-data marker when the filter is empty, list the
first three FAILED records (slice failures[:3] of the filtered order), and
average the three resource fields over SUCCESS records only, omitting the
averages when there is no successful run. -/
def getHistoricalContext (jobName : Str) (records : List ExecutionRecord) :
    Option HistoricalContext :=
  if (jobRecords jobName records).isEmpty then none
  else
    let successes := successRecords jobName records
    let failures := failedRecords jobName records
    some
      { totalExecutions := (jobRecords jobName records).length
        successCount := successes.length
        failureCount := failures.length
        recentFailures :=
          (failures.take 3).map (fun r => (r.executionDate, r.failureReason))
        avgUsage :=
          if successes.isEmpty then none
          else some
            ((successes.map (fun r => r.peakMemoryGb)).sum / (successes.length : Rat),
             (successes.map (fun r => r.avgCpuCores)).sum / (successes.length : Rat),
             (successes.map (fun r => r.storageUsedGb)).sum / (successes.length : Rat)) }

/-- Lexicographic comparison of character lists by code point (the order
Python string comparison uses; ISO dates compare chronologically under it). -/
def strLe : Str → Str → Bool
  | [], _ => true
  | _ :: _, [] => false
  | a :: as, b :: bs =>
    if a.toNat < b.toNat then true
    else if b.toNat < a.toNat then false
    else strLe as bs

/-- Insert a record into a list kept in descending execution-date order. -/
def insertDesc (r : ExecutionRecord) : List ExecutionRecord → List ExecutionRecord
  | [] => [r]
  | x :: xs =>
    if strLe x.executionDate r.executionDate then r :: x :: xs
    else x :: insertDesc r xs

/-- Insertion sort by descending execution date. -/
def sortByDateDesc (l : List ExecutionRecord) : List ExecutionRecord :=
  l.foldr insertDesc []

/-- Modelled from the spec: the failure listing the claim describes — the 3
most recent FAILED records of the job, ordered by descending execution
timestamp, each reduced to (timestamp, failure reason).  Stated for
comparison with what getHistoricalContext actually lists. -/
def specRecentFailures (jobName : Str) (records : List ExecutionRecord) :
    List (Str × Str) :=
  ((sortByDateDesc (failedRecords jobName records)).take 3).map
    (fun r => (r.executionDate, r.failureReason))

/-- The terminal color classes of class Colors used by the presenter. -/
inductive Color where
  | header : Color
  | okblue : Color
  | okcyan : Color
  | okgreen : Color
  | warning : Color
  | fail : Color
  | endc : Color
  | bold : Color
  | underline : Color
deriving DecidableEq

/-- _prob_color of SPDEMO_demo.py. -/
def probColor (probability : Int) : Color :=
  if 70 ≤ probability then Color.fail
  else if 40 ≤ probability then Color.warning
  else Color.okgreen

/-- The severity_map dict of _severity_color. -/
def severityColorMap : List (Str × Color) :=
  [("CRITICAL".data, Color.fail), ("HIGH".data, Color.warning),
   ("MEDIUM".data, Color.okcyan), ("LOW".data, Color.okgreen)]

/-- _severity_color of SPDEMO_demo.py: severity_map.get(severity, ENDC). -/
def severityColor (severity : Str) : Color :=
  ((severityColorMap.find? (fun kv => decide (kv.1 = severity))).map
    (fun kv => kv.2)).getD Color.endc

/-- Whether a prediction value reaches the operator: run_interactive_demo
shows it when predict_with_claude returned a value and that value is truthy
(display_predictions repeats the same truthiness guard). -/
def displayedToOperator : Option Json → Bool
  | none => false
  | some v => pyTruthy v

/-- The well-formedness the all-or-nothing invariant asks for: all five
prediction-category keys present under "predictions" and an
"overall_assessment" key present. -/
def wellFormedResult (v : Json) : Bool :=
  (match jGet v ("predictions".data) with
   | some preds =>
     (jGet preds ("pod_scheduling".data)).isSome
       && (jGet preds ("efs_mount".data)).isSome
       && (jGet preds ("memory_oomkill".data)).isSome
       && (jGet preds ("iam_permissions".data)).isSome
       && (jGet preds ("data_quality".data)).isSome
   | none => false)
  && (jGet v ("overall_assessment".data)).isSome

/-- display_predictions: should_execute as displayed, i.e.
predictions.get('overall_assessment', dict()).get('should_execute', True)
read with Python truthiness. -/
def displayShouldExecute (v : Json) : Bool :=
  pyTruthy
    ((jGet ((jGet v ("overall_assessment".data)).getD (Json.obj []))
      ("should_execute".data)).getD (Json.bool true))

/-- The overall-decision line display_predictions prints. -/
def displayDecisionLine (v : Json) : Str :=
  if displayShouldExecute v then ("SAFE TO EXECUTE".data)
  else ("DO NOT EXECUTE".data)

/-- The four severity values of the spec. -/
def severityEnum : List Str :=
  [("LOW".data), ("MEDIUM".data), ("HIGH".data), ("CRITICAL".data)]

/-- The four effort categories of the spec. -/
def effortEnum : List Str :=
  [("SIMPLE".data), ("MEDIUM".data), ("COMPLEX".data), ("CRITICAL".data)]

/-- The five prediction-category keys. -/
def predictionCategoryKeys : List Str :=
  [("pod_scheduling".data), ("efs_mount".data), ("memory_oomkill".data),
   ("iam_permissions".data), ("data_quality".data)]

/-- The optional field is an integer in the closed interval. -/
def isIntIn (j : Option Json) (lo hi : Int) : Bool :=
  match j with
  | some (Json.num n) => decide (lo ≤ n) && decide (n ≤ hi)
  | _ => false

/-- The optional field is a string member of the enumeration. -/
def isEnumOf (j : Option Json) (vals : List Str) : Bool :=
  match j with
  | some (Json.str s) => vals.any (fun v => decide (v = s))
  | _ => false

/-- The optional field is a string. -/
def isStrVal (j : Option Json) : Bool :=
  match j with
  | some (Json.str _) => true
  | _ => false

/-- The optional field is a boolean. -/
def isBoolVal (j : Option Json) : Bool :=
  match j with
  | some (Json.bool _) => true
  | _ => false

/-- The optional field is a list of strings. -/
def isStrList (j : Option Json) : Bool :=
  match j with
  | some (Json.arr xs) =>
    xs.all (fun x => match x with | Json.str _ => true | _ => false)
  | _ => false

/-- Modelled from the spec: one prediction category carries a probability
(integer 0 to 100), a severity from the enumeration, a root cause string and
a list of recommendation strings that is non-empty when the probability is
positive. -/
def specCategoryOk (j : Json) : Bool :=
  isIntIn (jGet j ("probability".data)) 0 100
    && isEnumOf (jGet j ("severity".data)) severityEnum
    && isStrVal (jGet j ("root_cause".data))
    && isStrList (jGet j ("recommendations".data))
    && (match jGet j ("probability".data), jGet j ("recommendations".data) with
        | some (Json.num n), some (Json.arr xs) => decide (n ≤ 0) || !xs.isEmpty
        | _, _ => false)

/-- Modelled from the spec: the structural validation of section 4.4 step 5 —
all five PredictionCategory keys present under "predictions" and each
compliant, "overall_assessment" present with should_execute boolean,
overall severity from the enumeration, overall probability an integer 0 to
100 and a recommendation string, and "estimated_effort" present with an
effort category from the enumeration, positive integer story points and an
estimated-hours string.  The code performs no such validation; this
predicate exists to compare the spec's contract with what the code does. -/
def specSchemaOk (v : Json) : Bool :=
  (match jGet v ("predictions".data) with
   | some preds =>
     predictionCategoryKeys.all (fun k =>
       match jGet preds k with
       | some c => specCategoryOk c
       | none => false)
   | none => false)
  && (match jGet v ("overall_assessment".data) with
      | some oa =>
        isBoolVal (jGet oa ("should_execute".data))
          && isEnumOf (jGet oa ("overall_severity".data)) severityEnum
          && isIntIn (jGet oa ("overall_probability".data)) 0 100
          && isStrVal (jGet oa ("recommendation".data))
      | none => false)
  && (match jGet v ("estimated_effort".data) with
      | some ee =>
        isEnumOf (jGet ee ("category".data)) effortEnum
          && (match jGet ee ("story_points".data) with
              | some (Json.num n) => decide (0 < n)
              | _ => false)
          && isStrVal (jGet ee ("estimated_hours".data))
      | none => false)

/-- The cluster figures the prompt reads: cluster_info.cluster_name and the
first node group's available_cpu and available_memory_gi. -/
structure ClusterConfig where
  clusterName : Str
  region : Str
  nodeGroupName : Str
  availableCpu : Int
  availableMemoryGi : Int

/-- The hard-coded dict load_demo_data installs when reading or YAML-parsing
config/eks_cluster_config.yaml raises. -/
def fallbackClusterConfig : ClusterConfig :=
  { clusterName := ("bi-abi-apps-prod".data)
    region := ("us-east-1".data)
    nodeGroupName := ("data-processing-ng".data)
    availableCpu := 20
    availableMemoryGi := 280 }

/-- The try/except around the cluster-configuration load in load_demo_data:
a successful load is used as is, a failed load (none) is replaced by the
simplified hard-coded configuration. -/
def resolveClusterConfig : Option ClusterConfig → ClusterConfig
  | some c => c
  | none => fallbackClusterConfig

/-- Decimal rendering of an integer. -/
def intToStr (n : Int) : Str :=
  if n < 0 then '-' :: Nat.toDigits 10 (-n).toNat
  else Nat.toDigits 10 n.toNat

/-- JSON string escaping as json.dumps performs it for the characters this
development uses. -/
def jsonEscChar (c : Char) : Str :=
  if c = '"' then ('\\' :: '"' :: [])
  else if c = '\\' then ('\\' :: '\\' :: [])
  else if c = '\n' then ('\\' :: 'n' :: [])
  else if c = '\t' then ('\\' :: 't' :: [])
  else if c = '\r' then ('\\' :: 'r' :: [])
  else [c]

/-- A quoted, escaped JSON string literal. -/
def quoteJsonStr (s : Str) : Str :=
  '"' :: s.foldr (fun c acc => jsonEscChar c ++ acc) ('"' :: [])

/-- n spaces. -/
def indentSp (n : Nat) : Str := List.replicate n ' '

/-- Join pieces with a separator. -/
def joinStr (sep : Str) : List Str → Str
  | [] => []
  | [x] => x
  | x :: xs => x ++ sep ++ joinStr sep xs

/-- json.dumps(j, indent=2), fuel-driven on the nesting depth (the fuel in
dumpsIndent2 is ample for every value considered). -/
def dumps2 : Nat → Nat → Json → Str
  | 0, _, _ => []
  | fuel + 1, lvl, j =>
    match j with
    | Json.null => ("null".data)
    | Json.bool true => ("true".data)
    | Json.bool false => ("false".data)
    | Json.num n => intToStr n
    | Json.str s => quoteJsonStr s
    | Json.arr [] => ("[]".data)
    | Json.arr xs =>
      ('[' :: '\n' :: []) ++
        joinStr ((",\n".data))
          (xs.map (fun x => indentSp (2 * (lvl + 1)) ++ dumps2 fuel (lvl + 1) x))
        ++ ('\n' :: indentSp (2 * lvl)) ++ (']' :: [])
    | Json.obj [] => ("\x7b\x7d".data)
    | Json.obj fs =>
      ('\x7b' :: '\n' :: []) ++
        joinStr ((",\n".data))
          (fs.map (fun kv =>
            indentSp (2 * (lvl + 1)) ++ quoteJsonStr kv.1 ++ (": ".data)
              ++ dumps2 fuel (lvl + 1) kv.2))
        ++ ('\n' :: indentSp (2 * lvl)) ++ ('\x7d' :: [])

/-- json.dumps(job_config, indent=2). -/
def dumpsIndent2 (j : Json) : Str := dumps2 1000 0 j

/-- The prompt text before the dumped job configuration. -/
def promptPart1 : Str :=
  ("You are an expert in predicting failures for Ab Initio jobs running on AWS EKS.\n\nAnalyze this job configuration and predict potential failures:\n\n**Job Configuration:**\n```json\n".data)

/-- The prompt text between the job configuration and the historical data. -/
def promptPart2 : Str :=
  ("\n```\n\n**Historical Execution Data:**\n".data)

/-- The prompt text before the available-CPU figure. -/
def promptPart3 : Str :=
  ("\n\n**EKS Cluster State:**\n- Available CPU: ".data)

/-- The prompt text before the available-memory figure. -/
def promptPart4 : Str :=
  (" cores\n- Available Memory: ".data)

/-- The prompt text before the cluster name. -/
def promptPart5 : Str :=
  (" GB\n- Cluster: ".data)

/-- The closing prompt text: the analysis instructions and the output-schema
description (the doubled braces of the Python f-string are literal braces
here). -/
def promptPart6 : Str :=
  ("\n\n**Analysis Required:**\n\nPredict failures across these categories:\n1. **Pod Scheduling** - Will the pod be schedulable given current cluster resources?\n2. **EFS Mount** - Will EFS mount succeed?\n3. **Memory (OOMKill)** - Will the job exceed memory limits?\n4. **IAM Permissions** - Are required AWS permissions in place?\n5. **Data Quality** - Will duplicate data cause issues?\n\n".data)
  ++ ("For each category, provide:\n- **Probability** (0-100%)\n- **Severity** (LOW, MEDIUM, HIGH, CRITICAL)\n- **Root Cause** (why this failure might occur)\n- **Recommendations** (how to prevent it)\n\nReturn your analysis as a JSON object with this structure:\n".data)
  ++ ("\x7b\n  \"predictions\": \x7b\n    \"pod_scheduling\": \x7b\n      \"probability\": <number>,\n      \"severity\": \"<string>\",\n      \"root_cause\": \"<string>\",\n      \"recommendations\": [\"<string>\", ...]\n    \x7d,\n    \"efs_mount\": \x7b ... \x7d,\n    \"memory_oomkill\": \x7b ... \x7d,\n    \"iam_permissions\": \x7b ... \x7d,\n    \"data_quality\": \x7b ... \x7d\n  \x7d,\n".data)
  ++ ("  \"overall_assessment\": \x7b\n    \"should_execute\": <boolean>,\n    \"overall_severity\": \"<string>\",\n    \"overall_probability\": <number>,\n    \"recommendation\": \"<string>\"\n  \x7d,\n  \"estimated_effort\": \x7b\n    \"category\": \"SIMPLE|MEDIUM|COMPLEX|CRITICAL\",\n    \"story_points\": <number>,\n    \"estimated_hours\": \"<string>\"\n  \x7d\n\x7d\n\nProvide only the JSON output, no additional text.".data)

/-- The prompt predict_with_claude composes from the job configuration, the
historical-context text and the cluster configuration (lines 152 to 211 of
SPDEMO_demo.py). -/
def composePrompt (jobConfig : Json) (historicalContext : Str)
    (cc : ClusterConfig) : Str :=
  promptPart1 ++ dumpsIndent2 jobConfig ++ promptPart2 ++ historicalContext
    ++ promptPart3 ++ intToStr cc.availableCpu
    ++ promptPart4 ++ intToStr cc.availableMemoryGi
    ++ promptPart5 ++ cc.clusterName ++ promptPart6

/-- Failure record of job j dated 2025-01-01 (earlier), listed first in the
history file order. -/
def c4r1 : ExecutionRecord :=
  { jobName := ("j".data), executionDate := ("2025-01-01".data)
    status := ExecStatus.FAILED, failureReason := ("oom".data)
    peakMemoryGb := 0, avgCpuCores := 0, storageUsedGb := 0 }

/-- Failure record of job j dated 2025-02-02 (more recent), listed second. -/
def c4r2 : ExecutionRecord :=
  { jobName := ("j".data), executionDate := ("2025-02-02".data)
    status := ExecStatus.FAILED, failureReason := ("net".data)
    peakMemoryGb := 0, avgCpuCores := 0, storageUsedGb := 0 }

/-- A history whose records appear in ascending date order. -/
def c4recs : List ExecutionRecord := [c4r1, c4r2]

/-- A successful run of job j with usage (2, 1, 4). -/
def w7r1 : ExecutionRecord :=
  { jobName := ("j".data), executionDate := ("2025-03-01".data)
    status := ExecStatus.SUCCESS, failureReason := []
    peakMemoryGb := 2, avgCpuCores := 1, storageUsedGb := 4 }

/-- A successful run of job j with usage (4, 3, 6). -/
def w7r2 : ExecutionRecord :=
  { jobName := ("j".data), executionDate := ("2025-03-02".data)
    status := ExecStatus.SUCCESS, failureReason := []
    peakMemoryGb := 4, avgCpuCores := 3, storageUsedGb := 6 }

/-- A history of two successful runs of job j. -/
def w7recs : List ExecutionRecord := [w7r1, w7r2]

/-- A reply that parses as JSON but carries probability 101 and misses four
category keys, overall_assessment and estimated_effort. -/
def c1cText : Str :=
  ("\x7b\"predictions\": \x7b\"pod_scheduling\": \x7b\"probability\": 101\x7d\x7d\x7d".data)

/-- The value c1cText parses to. -/
def c1cVal : Json :=
  Json.obj [(("predictions".data),
    Json.obj [(("pod_scheduling".data),
      Json.obj [(("probability".data), Json.num 101)])])]

/-- A reply that parses as JSON but misses the predictions key entirely. -/
def c1wText : Str :=
  ("\x7b\"overall_assessment\": \x7b\x7d\x7d".data)

/-- The value c1wText parses to. -/
def c1wVal : Json :=
  Json.obj [(("overall_assessment".data), Json.obj [])]

/-- A reply whose parse succeeds and is truthy yet has none of the five
prediction categories and no overall assessment. -/
def c2Text : Str :=
  ("\x7b\"predictions\": \x7b\x7d\x7d".data)

/-- The value c2Text parses to. -/
def c2Val : Json :=
  Json.obj [(("predictions".data), Json.obj [])]

/-- A fenced reply whose payload is not JSON. -/
def c6Text : Str :=
  ("```json\nnot json\n```".data)

/-- The historical context computed for w7recs (fields written as the
expressions getHistoricalContext produces, so the equation below holds by
definitional unfolding). -/
def w7ctx : HistoricalContext :=
  { totalExecutions := (jobRecords ("j".data) w7recs).length
    successCount := (successRecords ("j".data) w7recs).length
    failureCount := (failedRecords ("j".data) w7recs).length
    recentFailures :=
      ((failedRecords ("j".data) w7recs).take 3).map
        (fun r => (r.executionDate, r.failureReason))
    avgUsage := some
      (((successRecords ("j".data) w7recs).map (fun r => r.peakMemoryGb)).sum
          / ((successRecords ("j".data) w7recs).length : Rat),
       ((successRecords ("j".data) w7recs).map (fun r => r.avgCpuCores)).sum
          / ((successRecords ("j".data) w7recs).length : Rat),
       ((successRecords ("j".data) w7recs).map (fun r => r.storageUsedGb)).sum
          / ((successRecords ("j".data) w7recs).length : Rat)) }

/-- The fenced wrapping of a payload the round-trip claim describes. -/
def wrapFence (p : Str) : Str :=
  ("```json\n".data) ++ p ++ ("\n```".data)

/-- A schema-compliant payload with no fence marker inside. -/
def c5good : Str :=
  ("\x7b\"predictions\": \x7b\"pod_scheduling\": \x7b\"probability\": 0, \"severity\": \"LOW\", \"root_cause\": \"x\", \"recommendations\": []\x7d, \"efs_mount\": \x7b\"probability\": 0, \"severity\": \"LOW\", \"root_cause\": \"x\", \"recommendations\": []\x7d, \"memory_oomkill\": \x7b\"probability\": 0, \"severity\": \"LOW\", \"root_cause\": \"x\", \"recommendations\": []\x7d, \"iam_permissions\": \x7b\"probability\": 0, \"severity\": \"LOW\", \"root_cause\": \"x\", \"recommendations\": []\x7d, \"data_quality\": \x7b\"probability\": 0, \"severity\": \"LOW\", \"root_cause\": \"x\", \"recommendations\": []\x7d\x7d, \"overall_assessment\": \x7b\"should_execute\": true, \"overall_severity\": \"LOW\", \"overall_probability\": 0, \"recommendation\": \"ok\"\x7d, \"estimated_effort\": \x7b\"category\": \"SIMPLE\", \"story_points\": 1, \"estimated_hours\": \"1-2\"\x7d\x7d".data)

/-- A schema-compliant payload whose pod_scheduling root cause contains a
fence marker; the schema places no constraint on string contents, so this
payload is as compliant as c5good. -/
def c5bad : Str :=
  ("\x7b\"predictions\": \x7b\"pod_scheduling\": \x7b\"probability\": 0, \"severity\": \"LOW\", \"root_cause\": \"use ``` fences\", \"recommendations\": []\x7d, \"efs_mount\": \x7b\"probability\": 0, \"severity\": \"LOW\", \"root_cause\": \"x\", \"recommendations\": []\x7d, \"memory_oomkill\": \x7b\"probability\": 0, \"severity\": \"LOW\", \"root_cause\": \"x\", \"recommendations\": []\x7d, \"iam_permissions\": \x7b\"probability\": 0, \"severity\": \"LOW\", \"root_cause\": \"x\", \"recommendations\": []\x7d, \"data_quality\": \x7b\"probability\": 0, \"severity\": \"LOW\", \"root_cause\": \"x\", \"recommendations\": []\x7d\x7d, \"overall_assessment\": \x7b\"should_execute\": true, \"overall_severity\": \"LOW\", \"overall_probability\": 0, \"recommendation\": \"ok\"\x7d, \"estimated_effort\": \x7b\"category\": \"SIMPLE\", \"story_points\": 1, \"estimated_hours\": \"1-2\"\x7d\x7d".data)

theorem isPre_iff (sub s : Str) : isPre sub s = true ↔ sub <+: s := by
  induction sub generalizing s with
  | nil => simp [isPre]
  | cons a as ih =>
    cases s with
    | nil => simp [isPre]
    | cons b bs =>
      simp [isPre, ih bs, List.cons_prefix_cons]

theorem isSub_iff (sub s : Str) : isSub sub s = true ↔ sub <:+: s := by
  induction s with
  | nil =>
    simp [isSub, isPre_iff, List.prefix_nil, List.infix_nil]
  | cons c rest ih =>
    simp only [isSub, Bool.or_eq_true, isPre_iff, ih]
    constructor
    · rintro (h | h)
      · exact h.isInfix
      · exact h.trans (List.infix_cons (List.infix_refl rest))
    · rintro ⟨l, r, hlr⟩
      cases l with
      | nil => left; exact ⟨r, by simpa using hlr⟩
      | cons x xs =>
        right
        have h2 : xs ++ (sub ++ r) = rest := by
          have h3 := hlr
          simp only [List.cons_append] at h3
          injection h3 with h4 h5
          simpa [List.append_assoc] using h5
        exact ⟨xs, r, by simpa [List.append_assoc] using h2⟩

/-- C7: for records filtered to a job, a zero success count makes the
historical summary omit the resource-usage averages entirely (none is
recorded, no division happens), and a positive success count makes each
recorded average the arithmetic mean of that resource field over the
success records only. -/
theorem C7_success_averages (jobName : Str) (records : List ExecutionRecord)
    (ctx : HistoricalContext)
    (h : getHistoricalContext jobName records = some ctx) :
    ctx.successCount = (successRecords jobName records).length ∧
    ((successRecords jobName records).isEmpty = true → ctx.avgUsage = none) ∧
    ((successRecords jobName records).isEmpty = false →
      ctx.avgUsage = some
        (((successRecords jobName records).map (fun r => r.peakMemoryGb)).sum
            / ((successRecords jobName records).length : Rat),
         ((successRecords jobName records).map (fun r => r.avgCpuCores)).sum
            / ((successRecords jobName records).length : Rat),
         ((successRecords jobName records).map (fun r => r.storageUsedGb)).sum
            / ((successRecords jobName records).length : Rat))) := by
  unfold getHistoricalContext at h
  split at h
  · exact absurd h (by simp)
  · have hc : ctx = _ := (Option.some.inj h).symm
    subst hc
    refine ⟨rfl, ?_, ?_⟩
    · intro he; simp [he]
    · intro he; simp [he]

/-- Witness for C7 at a concrete two-success history. -/
theorem C7_success_averages_witness :
    getHistoricalContext ("j".data) w7recs = some w7ctx ∧
    (successRecords ("j".data) w7recs).isEmpty = false ∧
    w7ctx.avgUsage = some
      (((successRecords ("j".data) w7recs).map (fun r => r.peakMemoryGb)).sum
          / ((successRecords ("j".data) w7recs).length : Rat),
       ((successRecords ("j".data) w7recs).map (fun r => r.avgCpuCores)).sum
          / ((successRecords ("j".data) w7recs).length : Rat),
       ((successRecords ("j".data) w7recs).map (fun r => r.storageUsedGb)).sum
          / ((successRecords ("j".data) w7recs).length : Rat)) :=
  ⟨rfl, by decide,
    (C7_success_averages ("j".data) w7recs w7ctx rfl).2.2 (by decide)⟩

/-- C8: prompt composition is deterministic — two invocations on identical
(job configuration, historical context, cluster snapshot) inputs produce
identical prompt strings; the composition is a pure function of these three
inputs, with no randomness and no clock reads. -/
theorem C8_prompt_deterministic (jc1 jc2 : Json) (hc1 hc2 : Str)
    (cc1 cc2 : ClusterConfig) (hj : jc1 = jc2) (hh : hc1 = hc2)
    (hc : cc1 = cc2) :
    composePrompt jc1 hc1 cc1 = composePrompt jc2 hc2 cc2 := by
  subst hj; subst hh; subst hc; rfl

/-- Witness for C8 at concrete inputs. -/
theorem C8_prompt_deterministic_witness :
    composePrompt (Json.obj []) ("h".data) fallbackClusterConfig =
      composePrompt (Json.obj []) ("h".data) fallbackClusterConfig :=
  C8_prompt_deterministic (Json.obj []) (Json.obj []) ("h".data) ("h".data)
    fallbackClusterConfig fallbackClusterConfig rfl rfl rfl

/-- C9: the band mappings are total and exhaustive — every integer
probability in [0,100] maps to exactly one of the three bands (at least 70
to the high-risk red band, 40 to 69 to the medium-risk yellow band, below
40 to the low-risk green band), and every severity in LOW, MEDIUM, HIGH,
CRITICAL maps to one of the four defined display bands; both functions are
total, so no exception path exists. -/
theorem C9_classifier_totality :
    (∀ p : Int, 0 ≤ p → p ≤ 100 →
      (probColor p = Color.fail ∨ probColor p = Color.warning ∨
        probColor p = Color.okgreen) ∧
      (70 ≤ p → probColor p = Color.fail) ∧
      (40 ≤ p → p < 70 → probColor p = Color.warning) ∧
      (p < 40 → probColor p = Color.okgreen)) ∧
    (∀ s : Str, s ∈ severityEnum →
      severityColor s = Color.okgreen ∨ severityColor s = Color.okcyan ∨
        severityColor s = Color.warning ∨ severityColor s = Color.fail) := by
  constructor
  · intro p h0 h100
    unfold probColor
    split_ifs with hA hB
    · exact ⟨Or.inl rfl, fun _ => rfl, fun _ hlt => absurd hA (by omega),
        fun hlt => absurd hA (by omega)⟩
    · exact ⟨Or.inr (Or.inl rfl), fun h70 => absurd h70 hA, fun _ _ => rfl,
        fun hlt => absurd hB (by omega)⟩
    · exact ⟨Or.inr (Or.inr rfl), fun h70 => absurd h70 hA,
        fun h40 _ => absurd h40 hB, fun _ => rfl⟩
  · intro s hs
    simp only [severityEnum, List.mem_cons, List.not_mem_nil, or_false] at hs
    rcases hs with rfl | rfl | rfl | rfl
    · exact Or.inl (by decide)
    · exact Or.inr (Or.inl (by decide))
    · exact Or.inr (Or.inr (Or.inl (by decide)))
    · exact Or.inr (Or.inr (Or.inr (by decide)))

/-- Witness for C9 at probability 85 and severity LOW. -/
theorem C9_classifier_totality_witness :
    (0 : Int) ≤ 85 ∧ (85 : Int) ≤ 100 ∧ probColor 85 = Color.fail ∧
    ("LOW".data) ∈ severityEnum ∧
    (severityColor ("LOW".data) = Color.okgreen ∨
      severityColor ("LOW".data) = Color.okcyan ∨
      severityColor ("LOW".data) = Color.warning ∨
      severityColor ("LOW".data) = Color.fail) :=
  ⟨by decide, by decide,
    (C9_classifier_totality.1 85 (by decide) (by decide)).2.1 (by decide),
    by decide,
    C9_classifier_totality.2 ("LOW".data) (by decide)⟩

/-- C10: when the parsed prediction value has no overall_assessment key, or
has one without a should_execute field, display_predictions defaults
should_execute to True and prints the job as SAFE TO EXECUTE — the
missing-field default at the display interface is the permissive value. -/
theorem C10_missing_should_execute_defaults_safe (v : Json)
    (h : jGet v ("overall_assessment".data) = none ∨
      ∃ ov, jGet v ("overall_assessment".data) = some ov ∧
        jGet ov ("should_execute".data) = none) :
    displayShouldExecute v = true ∧
    displayDecisionLine v = ("SAFE TO EXECUTE".data) := by
  have hexec : displayShouldExecute v = true := by
    unfold displayShouldExecute
    rcases h with h | ⟨ov, h1, h2⟩
    · rw [h]; rfl
    · rw [h1]
      simp only [Option.getD_some]
      rw [h2]
      rfl
  refine ⟨hexec, ?_⟩
  unfold displayDecisionLine
  rw [hexec]
  rfl

/-- Witness for C10 at the empty JSON object. -/
theorem C10_missing_should_execute_defaults_safe_witness :
    jGet (Json.obj []) ("overall_assessment".data) = none ∧
    displayShouldExecute (Json.obj []) = true ∧
    displayDecisionLine (Json.obj []) = ("SAFE TO EXECUTE".data) :=
  ⟨rfl,
    (C10_missing_should_execute_defaults_safe (Json.obj []) (Or.inl rfl)).1,
    (C10_missing_should_execute_defaults_safe (Json.obj []) (Or.inl rfl)).2⟩

/-- C4 counterexample: with two failures of the same job stored in ascending
date order, the summary lists them in stored order (oldest first), not by
descending execution timestamp as the claim states, so the listed failures
differ from the three most recent ordered by recency. -/
theorem C4_counterexample :
    (getHistoricalContext ("j".data) c4recs).map HistoricalContext.recentFailures
      = some [(("2025-01-01".data), ("oom".data)),
              (("2025-02-02".data), ("net".data))] ∧
    specRecentFailures ("j".data) c4recs
      = [(("2025-02-02".data), ("net".data)),
         (("2025-01-01".data), ("oom".data))] ∧
    (getHistoricalContext ("j".data) c4recs).map HistoricalContext.recentFailures
      ≠ some (specRecentFailures ("j".data) c4recs) := by
  refine ⟨by decide, by decide, ?_⟩
  intro h
  rw [show specRecentFailures ("j".data) c4recs
      = [(("2025-02-02".data), ("net".data)),
         (("2025-01-01".data), ("oom".data))] from by decide] at h
  exact absurd h (by decide)

/-- C4 amended: the historical summary lists at most 3 failures, namely the
first 3 FAILED records of the job in the order they appear in the record
list (no sorting by timestamp is performed), each reduced to its execution
date and failure reason; every listed entry does come from a FAILED record
of that job. -/
theorem C4_failure_listing (jobName : Str) (records : List ExecutionRecord)
    (ctx : HistoricalContext)
    (h : getHistoricalContext jobName records = some ctx) :
    ctx.recentFailures.length ≤ 3 ∧
    ctx.recentFailures = ((failedRecords jobName records).take 3).map
      (fun r => (r.executionDate, r.failureReason)) ∧
    ∀ pr ∈ ctx.recentFailures, ∃ r, r ∈ records ∧ r.jobName = jobName ∧
      r.status = ExecStatus.FAILED ∧ pr = (r.executionDate, r.failureReason) := by
  unfold getHistoricalContext at h
  split at h
  · exact absurd h (by simp)
  · have hc : ctx = _ := (Option.some.inj h).symm
    subst hc
    refine ⟨?_, rfl, ?_⟩
    · simp only [List.length_map, List.length_take]
      omega
    · intro pr hpr
      simp only [List.mem_map] at hpr
      obtain ⟨r, hrt, hpr⟩ := hpr
      have hrf : r ∈ failedRecords jobName records := List.mem_of_mem_take hrt
      unfold failedRecords jobRecords at hrf
      simp only [List.mem_filter, decide_eq_true_eq] at hrf
      exact ⟨r, hrf.1.1, hrf.1.2, hrf.2, hpr.symm⟩

/-- Witness for C4 at the concrete two-failure history. -/
theorem C4_failure_listing_witness :
    getHistoricalContext ("j".data) c4recs = some
      { totalExecutions := (jobRecords ("j".data) c4recs).length
        successCount := (successRecords ("j".data) c4recs).length
        failureCount := (failedRecords ("j".data) c4recs).length
        recentFailures := ((failedRecords ("j".data) c4recs).take 3).map
          (fun r => (r.executionDate, r.failureReason))
        avgUsage := none } ∧
    (((failedRecords ("j".data) c4recs).take 3).map
        (fun r => (r.executionDate, r.failureReason))).length ≤ 3 :=
  ⟨rfl,
    (C4_failure_listing ("j".data) c4recs
      { totalExecutions := (jobRecords ("j".data) c4recs).length
        successCount := (successRecords ("j".data) c4recs).length
        failureCount := (failedRecords ("j".data) c4recs).length
        recentFailures := ((failedRecords ("j".data) c4recs).take 3).map
          (fun r => (r.executionDate, r.failureReason))
        avgUsage := none } rfl).1⟩

set_option maxRecDepth 400000 in
/-- C3 counterexample: when the cluster configuration cannot be loaded
(resolveClusterConfig receives none), the code does not refuse to compose a
prompt — it substitutes the hard-coded fallback figures (20 cores, 280 GB)
and the composed prompt contains them. -/
theorem C3_counterexample :
    resolveClusterConfig none = fallbackClusterConfig ∧
    (resolveClusterConfig none).availableCpu = 20 ∧
    (resolveClusterConfig none).availableMemoryGi = 280 ∧
    isSub ("- Available CPU: 20 cores".data)
      (composePrompt (Json.obj []) [] (resolveClusterConfig none)) = true := by
  exact ⟨rfl, rfl, rfl, by decide⟩

/-- C3 amended: when the cluster-capacity source is unavailable, the core
does not fail fast; load_demo_data substitutes the hard-coded fallback
configuration (cluster bi-abi-apps-prod, 20 available CPU cores, 280 GB
available memory) and every prompt composed afterwards embeds those default
capacity figures. -/
theorem C3_fallback_substituted (jc : Json) (hist : Str) :
    isSub ("- Available CPU: 20 cores".data)
      (composePrompt jc hist (resolveClusterConfig none)) = true ∧
    isSub ("- Available Memory: 280 GB".data)
      (composePrompt jc hist (resolveClusterConfig none)) = true := by
  constructor
  · apply (isSub_iff _ _).mpr
    have hmid : ("- Available CPU: 20 cores".data) <:+:
        (promptPart3 ++ intToStr 20 ++ promptPart4) :=
      (isSub_iff _ _).mp (by decide)
    refine hmid.trans ?_
    exact ⟨promptPart1 ++ dumpsIndent2 jc ++ promptPart2 ++ hist,
      intToStr 280 ++ promptPart5 ++ fallbackClusterConfig.clusterName
        ++ promptPart6,
      by simp [composePrompt, resolveClusterConfig, fallbackClusterConfig,
        List.append_assoc]⟩
  · apply (isSub_iff _ _).mpr
    have hmid : ("- Available Memory: 280 GB".data) <:+:
        (promptPart4 ++ intToStr 280 ++ promptPart5) :=
      (isSub_iff _ _).mp (by decide)
    refine hmid.trans ?_
    exact ⟨promptPart1 ++ dumpsIndent2 jc ++ promptPart2 ++ hist
        ++ promptPart3 ++ intToStr 20,
      fallbackClusterConfig.clusterName ++ promptPart6,
      by simp [composePrompt, resolveClusterConfig, fallbackClusterConfig,
        List.append_assoc]⟩

/-- C1 counterexample: a reply that parses as JSON but violates the schema
(probability 101, four category keys, overall_assessment and
estimated_effort all missing) still yields a prediction result; no
SchemaViolation failure exists — only the JSON-syntax failure path. -/
theorem C1_counterexample :
    jsonParse (pyStrip (extractResponseText c1cText)) = some c1cVal ∧
    specSchemaOk c1cVal = false ∧
    ((jGet c1cVal ("predictions".data)).bind
        (fun p => jGet p ("pod_scheduling".data))).bind
      (fun p => jGet p ("probability".data)) = some (Json.num 101) ∧
    predictParse c1cText = Except.ok c1cVal := by
  exact ⟨rfl, by decide, rfl, rfl⟩

/-- C1 amended: the parse step performs no structural validation — any reply
whose extracted payload parses as JSON yields the parsed value as the
prediction result, even when the value violates the spec's schema
(probability out of [0,100], missing category keys, missing
overall_assessment or estimated_effort); there is no SchemaViolation
failure kind distinct from the JSON-syntax failure. -/
theorem C1_no_schema_validation (t : Str) (v : Json)
    (h : jsonParse (pyStrip (extractResponseText t)) = some v)
    (hbad : specSchemaOk v = false) :
    predictParse t = Except.ok v := by
  unfold predictParse
  rw [h]

/-- Witness for C1 at a reply missing the predictions key. -/
theorem C1_no_schema_validation_witness :
    jsonParse (pyStrip (extractResponseText c1wText)) = some c1wVal ∧
    specSchemaOk c1wVal = false ∧
    predictParse c1wText = Except.ok c1wVal :=
  ⟨rfl, by decide, C1_no_schema_validation c1wText c1wVal rfl (by decide)⟩

/-- C2 counterexample: a reply whose parse succeeds but is not fully
well-formed (none of the five categories, no overall assessment) is still
handed to display_predictions, because the only guard between the parse and
the operator is Python truthiness — a partial result reaches the
operator. -/
theorem C2_counterexample :
    predictResult c2Text = some c2Val ∧
    wellFormedResult c2Val = false ∧
    pyTruthy c2Val = true ∧
    displayedToOperator (predictResult c2Text) = true := by
  exact ⟨rfl, by decide, by decide, by decide⟩

/-- C2 amended: the system withholds a result only when the parse fails
(None) or the parsed value is Python-falsy; any truthy parsed JSON value is
displayed, whether or not it is fully well-formed — all-or-nothing holds
only at the granularity of JSON-syntax success, not of schema
completeness. -/
theorem C2_display_guard :
    (∀ t v, predictResult t = some v → pyTruthy v = true →
      displayedToOperator (predictResult t) = true) ∧
    (∀ t, predictResult t = none →
      displayedToOperator (predictResult t) = false) := by
  constructor
  · intro t v h htr
    rw [h]
    simpa [displayedToOperator] using htr
  · intro t h
    rw [h]
    rfl

/-- Witness for C2 at a truthy reply that is not fully well-formed. -/
theorem C2_display_guard_witness :
    predictResult c2Text = some c2Val ∧ pyTruthy c2Val = true ∧
    wellFormedResult c2Val = false ∧
    displayedToOperator (predictResult c2Text) = true :=
  ⟨rfl, by decide, by decide, C2_display_guard.1 c2Text c2Val rfl (by decide)⟩

/-- A fence occurrence is implied by a tagged-fence occurrence. -/
theorem isSub_fence_of_fenceJson (t : Str) (h : isSub fenceJson t = true) :
    isSub fence t = true := by
  rw [isSub_iff] at h ⊢
  exact (show fence <:+: fenceJson from ⟨[], ("json".data), by decide⟩).trans h

/-- C6 counterexample: for a fenced reply whose payload is not JSON, the
diagnostic carried by the failure is the first 500 characters of the
extracted payload, not of the raw reply text (the code reassigns
response_text to the extracted substring before the except branch reads
it). -/
theorem C6_counterexample :
    predictParse c6Text = Except.error (("\nnot json\n").data) ∧
    (("\nnot json\n").data) ≠ List.take 500 c6Text := by
  exact ⟨rfl, by decide⟩

/-- C6 amended: when the extracted payload is not valid JSON the parse step
returns a failure carrying the first 500 characters of the extracted
payload text (never raising), and the extracted text equals the raw reply
exactly when the reply contains no code fence. -/
theorem C6_parse_failure_diagnostic (t : Str) :
    (jsonParse (pyStrip (extractResponseText t)) = none →
      predictParse t = Except.error (List.take 500 (extractResponseText t))) ∧
    (isSub fence t = false → extractResponseText t = t) := by
  constructor
  · intro h
    unfold predictParse
    rw [h]
  · intro h
    have hj : isSub fenceJson t = false := by
      cases hb : isSub fenceJson t
      · rfl
      · exact absurd (isSub_fence_of_fenceJson t hb) (by simp [h])
    simp [extractResponseText, hj, h]

/-- Witness for C6 at an unfenced non-JSON reply. -/
theorem C6_parse_failure_diagnostic_witness :
    jsonParse (pyStrip (extractResponseText ("hello".data))) = none ∧
    predictParse ("hello".data) =
      Except.error (List.take 500 (extractResponseText ("hello".data))) ∧
    isSub fence ("hello".data) = false ∧
    extractResponseText ("hello".data) = ("hello".data) :=
  ⟨rfl, (C6_parse_failure_diagnostic ("hello".data)).1 rfl,
   rfl, (C6_parse_failure_diagnostic ("hello".data)).2 rfl⟩

theorem isSub_eq_false_iff (sub s : Str) :
    isSub sub s = false ↔ ¬ sub <:+: s := by
  rw [← isSub_iff]
  cases isSub sub s <;> simp

theorem prefix_singleton_ne {α : Type} {c : α} {t : List α} (h : t <+: [c])
    (hne : t ≠ []) : t = [c] := by
  obtain ⟨post, hp⟩ := h
  cases t with
  | nil => exact absurd rfl hne
  | cons d t' =>
    simp only [List.cons_append] at hp
    injection hp with h1 h2
    obtain ⟨h3, _⟩ := List.append_eq_nil.mp h2
    simp [h1, h3]

theorem suffix_singleton_ne {α : Type} {c : α} {t : List α} (h : t <:+ [c])
    (hne : t ≠ []) : t = [c] := by
  obtain ⟨pre, hp⟩ := h
  cases pre with
  | nil => simpa using hp
  | cons x pre' =>
    rw [List.cons_append] at hp
    injection hp with h1 h2
    obtain ⟨_, h3⟩ := List.append_eq_nil.mp h2
    exact absurd h3 hne

theorem infix_append_cases {t a b : Str} (h : t <:+: a ++ b) :
    t <:+: a ∨ t <:+: b ∨
      ∃ t1 t2, t = t1 ++ t2 ∧ t1 ≠ [] ∧ t2 ≠ [] ∧ t1 <:+ a ∧ t2 <+: b := by
  obtain ⟨l, r, hlr⟩ := h
  have hlr' : l ++ (t ++ r) = a ++ b := by simpa [List.append_assoc] using hlr
  rcases List.append_eq_append_iff.mp hlr' with ⟨k, hk1, hk2⟩ | ⟨k, hk1, hk2⟩
  · rcases List.append_eq_append_iff.mp hk2 with ⟨m, hm1, hm2⟩ | ⟨m, hm1, hm2⟩
    · exact Or.inl ⟨l, m, by rw [hk1, hm1]; simp [List.append_assoc]⟩
    · by_cases hk : k = []
      · subst hk
        simp only [List.nil_append] at hm1
        exact Or.inr (Or.inl ⟨[], r, by rw [hm2, ← hm1]; simp⟩)
      · by_cases hm : m = []
        · rw [hm, List.append_nil] at hm1
          exact Or.inl (List.IsSuffix.isInfix ⟨l, by rw [hk1, hm1]⟩)
        · exact Or.inr (Or.inr ⟨k, m, hm1, hk, hm, ⟨l, hk1.symm⟩, ⟨r, hm2.symm⟩⟩)
  · exact Or.inr (Or.inl ⟨k, r, by rw [hk2]; simp [List.append_assoc]⟩)

theorem pySplitFuel_no_occur (sep : Str) :
    ∀ fuel s acc, s.length < fuel → isSub sep s = false →
      pySplitFuel fuel sep acc s = [acc.reverse ++ s] := by
  intro fuel
  induction fuel with
  | zero => intro s acc h _; exact absurd h (Nat.not_lt_zero _)
  | succ f ih =>
    intro s acc hlen hno
    cases s with
    | nil => simp [pySplitFuel]
    | cons c rest =>
      have hno2 : isPre sep (c :: rest) = false ∧ isSub sep rest = false := by
        have := hno
        simp only [isSub, Bool.or_eq_false_iff] at this
        exact this
      simp only [pySplitFuel, hno2.1, Bool.false_eq_true, if_false]
      rw [ih rest (c :: acc)
        (by simpa [Nat.succ_lt_succ_iff] using hlen) hno2.2]
      simp [List.reverse_cons, List.append_assoc]

theorem pySplitFuel_first (sep : Str) (hsep : sep ≠ []) :
    ∀ a fuel b acc, (a ++ sep ++ b).length < fuel →
      (∀ a1 a2, a = a1 ++ a2 → a2 ≠ [] → isPre sep (a2 ++ sep ++ b) = false) →
      ∃ fuel2, b.length < fuel2 ∧
        pySplitFuel fuel sep acc (a ++ sep ++ b) =
          (acc.reverse ++ a) :: pySplitFuel fuel2 sep [] b := by
  intro a
  induction a with
  | nil =>
    intro fuel b acc hlen hfirst
    cases fuel with
    | zero => exact absurd hlen (Nat.not_lt_zero _)
    | succ f =>
      have hs1 : 1 ≤ sep.length := by
        cases sep with
        | nil => exact absurd rfl hsep
        | cons _ _ => simp
      refine ⟨f, ?_, ?_⟩
      · simp only [List.nil_append, List.length_append] at hlen
        omega
      · cases sep with
        | nil => exact absurd rfl hsep
        | cons sc srest =>
          simp only [List.nil_append]
          have hshape : (sc :: srest) ++ b = sc :: (srest ++ b) := rfl
          rw [hshape]
          have hpre : isPre (sc :: srest) (sc :: (srest ++ b)) = true :=
            (isPre_iff _ _).mpr ⟨b, by simp⟩
          simp only [pySplitFuel, hpre, if_true]
          rw [← hshape, List.drop_left]
          simp
  | cons c a' ih =>
    intro fuel b acc hlen hfirst
    cases fuel with
    | zero => exact absurd hlen (Nat.not_lt_zero _)
    | succ f =>
      have hnopre : isPre sep (c :: (a' ++ sep ++ b)) = false := by
        have := hfirst [] (c :: a') (by simp) (by simp)
        simpa [List.append_assoc] using this
      have hshape : (c :: a') ++ sep ++ b = c :: (a' ++ sep ++ b) := by simp
      rw [hshape]
      simp only [pySplitFuel, hnopre, Bool.false_eq_true, if_false]
      obtain ⟨fuel2, hf1, hf2⟩ := ih f b (c :: acc)
        (by
          rw [hshape] at hlen
          simpa [Nat.succ_lt_succ_iff] using hlen)
        (fun a1 a2 he hne => hfirst (c :: a1) a2 (by rw [he]; rfl) hne)
      refine ⟨fuel2, hf1, ?_⟩
      rw [hf2]
      simp [List.reverse_cons, List.append_assoc]

theorem not_fence_infix_pad {p : Str} (hp : ¬ fence <:+: p) :
    ¬ fence <:+: ('\n' :: (p ++ ['\n'])) := by
  intro h
  have h' : fence <:+: (['\n'] ++ (p ++ ['\n'])) := by simpa using h
  rcases infix_append_cases h' with h1 | h1 | ⟨t1, t2, ht, hne1, hne2, hs, hpre⟩
  · exact absurd h1.length_le (by decide)
  · rcases infix_append_cases h1 with h2 | h2 | ⟨t1, t2, ht, hne1, hne2, hs, hpre⟩
    · exact hp h2
    · exact absurd h2.length_le (by decide)
    · have ht2 : t2 = ['\n'] := prefix_singleton_ne hpre hne2
      have hmem : '\n' ∈ fence := by
        rw [ht, ht2]
        exact List.mem_append_right _ (List.mem_singleton_self _)
      exact absurd hmem (by decide)
  · have ht1 : t1 = ['\n'] := suffix_singleton_ne hs hne1
    have hmem : '\n' ∈ fence := by
      rw [ht, ht1]
      exact List.mem_append_left _ (List.mem_singleton_self _)
    exact absurd hmem (by decide)

theorem not_fenceJson_infix_tail {p : Str} (hp : ¬ fence <:+: p) :
    ¬ fenceJson <:+: ('\n' :: (p ++ ('\n' :: fence))) := by
  intro h
  have hsplit : ('\n' :: (p ++ ('\n' :: fence)))
      = ('\n' :: (p ++ ['\n'])) ++ fence := by simp
  rw [hsplit] at h
  rcases infix_append_cases h with h1 | h1 | ⟨t1, t2, ht, hne1, hne2, hs, hpre⟩
  · exact not_fence_infix_pad hp
      ((show fence <+: fenceJson from ⟨("json".data), rfl⟩).isInfix.trans h1)
  · exact absurd h1.length_le (by decide)
  · have ht1p : t1 <+: fenceJson := ⟨t2, ht.symm⟩
    have hl7 : t1.length + t2.length = 7 := by
      have hlen := congrArg List.length ht
      rw [show fenceJson.length = 7 from rfl] at hlen
      simp only [List.length_append] at hlen
      omega
    have hl2 : t2.length ≤ 3 := by
      have hlen := hpre.length_le
      rw [show fence.length = 3 from rfl] at hlen
      exact hlen
    have hf1 : fence <+: t1 :=
      List.prefix_of_prefix_length_le ⟨("json".data), rfl⟩ ht1p
        (by rw [show fence.length = 3 from rfl]; omega)
    exact not_fence_infix_pad hp (hf1.isInfix.trans hs.isInfix)

theorem noEarlyFenceCut {p : Str} (hp : ¬ fence <:+: p) :
    ∀ a1 a2, ('\n' :: (p ++ ['\n'])) = a1 ++ a2 → a2 ≠ [] →
      isPre fence (a2 ++ fence ++ []) = false := by
  intro a1 a2 ha hne
  rw [List.append_nil]
  cases hb : isPre fence (a2 ++ fence)
  · rfl
  exfalso
  have hpre : fence <+: a2 ++ fence := (isPre_iff _ _).mp hb
  have ha2p : a2 <+: a2 ++ fence := List.prefix_append _ _
  by_cases hlen : 3 ≤ a2.length
  · have hf : fence <+: a2 :=
      List.prefix_of_prefix_length_le hpre ha2p
        (by rw [show fence.length = 3 from rfl]; omega)
    have : fence <:+: ('\n' :: (p ++ ['\n'])) := by
      rw [ha]
      exact hf.isInfix.trans (List.suffix_append a1 a2).isInfix
    exact not_fence_infix_pad hp this
  · have hf : a2 <+: fence :=
      List.prefix_of_prefix_length_le ha2p hpre
        (by rw [show fence.length = 3 from rfl]; omega)
    rcases List.eq_nil_or_concat a2 with h0 | ⟨L, c, hLc⟩
    · exact hne h0
    · rw [List.concat_eq_append] at hLc
      have hform : (a1 ++ L) ++ [c] = ('\n' :: p) ++ ['\n'] := by
        rw [List.append_assoc, ← hLc, ← ha]
        simp
      have hc : c = '\n' := by
        have := (List.append_inj' hform rfl).2
        injection this
      have hcmem : '\n' ∈ a2 := by
        rw [hLc, hc]
        exact List.mem_append_right _ (List.mem_singleton_self _)
      have : '\n' ∈ fence := hf.subset hcmem
      exact absurd this (by decide)

theorem pyStrip_cons_newline (s : Str) : pyStrip ('\n' :: s) = pyStrip s := by
  unfold pyStrip stripL
  rw [List.dropWhile_cons, if_pos (by decide)]

theorem stripL_append_of_nil {s : Str} (h : stripL s = []) (r : Str) :
    stripL (s ++ r) = stripL r := by
  induction s with
  | nil => simp
  | cons c s' ih =>
    by_cases hc : isWsChar c = true
    · have h' : stripL s' = [] := by
        rw [stripL, List.dropWhile_cons, if_pos hc] at h
        exact h
      rw [List.cons_append, stripL, List.dropWhile_cons, if_pos hc]
      exact ih h'
    · rw [stripL, List.dropWhile_cons, if_neg hc] at h
      exact absurd h (by simp)

theorem stripL_append_of_ne {s : Str} (h : stripL s ≠ []) (r : Str) :
    stripL (s ++ r) = stripL s ++ r := by
  induction s with
  | nil => exact absurd rfl h
  | cons c s' ih =>
    by_cases hc : isWsChar c = true
    · have h' : stripL s' ≠ [] := by
        rw [stripL, List.dropWhile_cons, if_pos hc] at h
        exact h
      rw [List.cons_append, stripL, List.dropWhile_cons, if_pos hc,
        show stripL (c :: s') = stripL s' from by
          simp [stripL, List.dropWhile_cons, hc]]
      exact ih h'
    · rw [List.cons_append, stripL, List.dropWhile_cons, if_neg hc,
        show stripL (c :: s') = c :: s' from by
          simp [stripL, List.dropWhile_cons, hc]]
      simp

theorem stripR_append_newline (x : Str) : stripR (x ++ ['\n']) = stripR x := by
  unfold stripR
  rw [show (x ++ ['\n']).reverse = '\n' :: x.reverse from by simp,
    List.dropWhile_cons, if_pos (by decide)]

theorem pyStrip_append_newline (s : Str) : pyStrip (s ++ ['\n']) = pyStrip s := by
  unfold pyStrip
  by_cases h : stripL s = []
  · rw [stripL_append_of_nil h, h]
    rfl
  · rw [stripL_append_of_ne h, stripR_append_newline]

theorem pySplit_wrap {p : Str} (hp : ¬ fence <:+: p) :
    extractResponseText (wrapFence p) = '\n' :: (p ++ ['\n']) := by
  have hw : wrapFence p = [] ++ fenceJson ++ ('\n' :: (p ++ ('\n' :: fence))) := rfl
  have hsub : isSub fenceJson (wrapFence p) = true :=
    (isSub_iff _ _).mpr ⟨[], '\n' :: (p ++ ('\n' :: fence)), hw.symm⟩
  have hno1 : isSub fenceJson ('\n' :: (p ++ ('\n' :: fence))) = false :=
    (isSub_eq_false_iff _ _).mpr (not_fenceJson_infix_tail hp)
  have hps1 : pySplit fenceJson (wrapFence p)
      = [[], '\n' :: (p ++ ('\n' :: fence))] := by
    unfold pySplit
    rw [hw]
    obtain ⟨fuel2, hlt2, heq⟩ := pySplitFuel_first fenceJson (by decide) []
      (([] ++ fenceJson ++ ('\n' :: (p ++ ('\n' :: fence)))).length + 1)
      ('\n' :: (p ++ ('\n' :: fence))) [] (Nat.lt_succ_self _)
      (fun a1 a2 he hne => absurd (List.append_eq_nil.mp he.symm).2 hne)
    rw [heq, pySplitFuel_no_occur fenceJson fuel2 _ [] hlt2 hno1]
    simp
  have hbb : ('\n' :: (p ++ ('\n' :: fence)))
      = ('\n' :: (p ++ ['\n'])) ++ fence ++ [] := by simp
  have hps2 : pySplit fence ('\n' :: (p ++ ('\n' :: fence)))
      = ['\n' :: (p ++ ['\n']), []] := by
    unfold pySplit
    rw [hbb]
    obtain ⟨fuel3, hlt3, heq⟩ := pySplitFuel_first fence (by decide)
      ('\n' :: (p ++ ['\n']))
      ((('\n' :: (p ++ ['\n'])) ++ fence ++ []).length + 1) [] []
      (Nat.lt_succ_self _) (noEarlyFenceCut hp)
    rw [heq, pySplitFuel_no_occur fence fuel3 [] [] hlt3 (by decide)]
    simp
  unfold extractResponseText
  rw [hsub, if_pos rfl, hps1]
  rw [show pyGet1 [[], '\n' :: (p ++ ('\n' :: fence))]
      = '\n' :: (p ++ ('\n' :: fence)) from rfl]
  rw [hps2]
  rfl

set_option maxRecDepth 1000000 in
/-- C5 counterexample: a syntactically valid, schema-compliant payload whose
pod_scheduling root cause contains the fence marker parses directly, yet
wrapping it in a json fence makes the extraction cut the payload at the
inner marker, so the fenced pipeline yields no result at all — not a result
equal to parsing the payload directly. -/
theorem C5_counterexample :
    (jsonParse (pyStrip c5bad)).map specSchemaOk = some true ∧
    isSub fence c5bad = true ∧
    ((predictParse (wrapFence c5bad)).toOption).isSome = false ∧
    (predictParse (wrapFence c5bad)).toOption ≠ jsonParse (pyStrip c5bad) := by
  refine ⟨by decide, by decide, by decide, ?_⟩
  intro h
  have h1 : ((predictParse (wrapFence c5bad)).toOption).isSome = false := by decide
  have h2 : (jsonParse (pyStrip c5bad)).isSome = true := by decide
  rw [h, h2] at h1
  exact Bool.noConfusion h1

/-- C5 amended: for every syntactically valid, schema-compliant JSON payload
p that does not contain the fence marker as a substring, parsing the raw
text obtained by wrapping p in a json code fence through the fence
extraction and parse steps yields exactly the value obtained by parsing p
directly with no fencing. -/
theorem C5_fence_roundtrip (p : Str) (v : Json)
    (hfence : isSub fence p = false)
    (hparse : jsonParse (pyStrip p) = some v)
    (hschema : specSchemaOk v = true) :
    predictParse (wrapFence p) = Except.ok v := by
  have hp : ¬ fence <:+: p := (isSub_eq_false_iff _ _).mp hfence
  have hex : extractResponseText (wrapFence p) = '\n' :: (p ++ ['\n']) :=
    pySplit_wrap hp
  unfold predictParse
  rw [hex]
  have hstrip : pyStrip ('\n' :: (p ++ ['\n'])) = pyStrip p := by
    rw [pyStrip_cons_newline, pyStrip_append_newline]
  rw [hstrip, hparse]

set_option maxRecDepth 1000000 in
/-- Witness for C5 at the fence-free compliant payload. -/
theorem C5_fence_roundtrip_witness :
    isSub fence c5good = false ∧
    jsonParse (pyStrip c5good) = some ((jsonParse (pyStrip c5good)).getD Json.null) ∧
    specSchemaOk ((jsonParse (pyStrip c5good)).getD Json.null) = true ∧
    predictParse (wrapFence c5good) =
      Except.ok ((jsonParse (pyStrip c5good)).getD Json.null) :=
  ⟨by decide, rfl, by decide,
    C5_fence_roundtrip c5good ((jsonParse (pyStrip c5good)).getD Json.null)
      (by decide) rfl (by decide)⟩
